import Mathlib

/- Verification of the gltf model loading and rendering subsystem
   (gltf_model.rs). Matrices follow the cgmath column-major layout:
   a Matrix4 is four column vectors x y z w, and the source expression
   mat[c][r] denotes component r of column c. Entries are rationals,
   which is exact for the claims considered here (the code only moves,
   zeroes and symbolically multiplies entries). Rust panics are modelled
   by the Panics result type: the embedded functions have no declared
   error channel, exactly like their Rust counterparts. -/

namespace DF

/-- Column vector of four rational components, as cgmath Vector4. -/
structure Vector4 where
  x : ℚ
  y : ℚ
  z : ℚ
  w : ℚ
deriving DecidableEq

/-- Column-major 4x4 matrix, as cgmath Matrix4: fields x y z w are the
    four columns, so the source mat[c][r] is component r of column c. -/
structure Matrix4 where
  x : Vector4
  y : Vector4
  z : Vector4
  w : Vector4
deriving DecidableEq

/-- Transpose of a column-major matrix, as cgmath Matrix.transpose. -/
def Matrix4.transpose (m : Matrix4) : Matrix4 :=
  ⟨⟨m.x.x, m.y.x, m.z.x, m.w.x⟩,
   ⟨m.x.y, m.y.y, m.z.y, m.w.y⟩,
   ⟨m.x.z, m.y.z, m.z.z, m.w.z⟩,
   ⟨m.x.w, m.y.w, m.z.w, m.w.w⟩⟩

/-- Matrix-vector product (column-vector convention, as cgmath). -/
def Matrix4.mulVec (m : Matrix4) (v : Vector4) : Vector4 :=
  ⟨m.x.x * v.x + m.y.x * v.y + m.z.x * v.z + m.w.x * v.w,
   m.x.y * v.x + m.y.y * v.y + m.z.y * v.z + m.w.y * v.w,
   m.x.z * v.x + m.y.z * v.y + m.z.z * v.z + m.w.z * v.w,
   m.x.w * v.x + m.y.w * v.y + m.z.w * v.z + m.w.w * v.w⟩

/-- Matrix product, as the cgmath Matrix4 multiplication. -/
def Matrix4.mul (a b : Matrix4) : Matrix4 :=
  ⟨a.mulVec b.x, a.mulVec b.y, a.mulVec b.z, a.mulVec b.w⟩

instance : Mul Matrix4 := ⟨Matrix4.mul⟩

/-- Identity matrix. -/
def idMat : Matrix4 :=
  ⟨⟨1, 0, 0, 0⟩, ⟨0, 1, 0, 0⟩, ⟨0, 0, 1, 0⟩, ⟨0, 0, 0, 1⟩⟩

/-- Pure translation matrix with translation column (x, y, z, 1). -/
def translateM (x y z : ℚ) : Matrix4 :=
  ⟨⟨1, 0, 0, 0⟩, ⟨0, 1, 0, 0⟩, ⟨0, 0, 1, 0⟩, ⟨x, y, z, 1⟩⟩

/-- Reasons a modelled Rust function can panic. -/
inductive PanicMsg where
  /-- Slice indexing out of bounds, as in image_data[i] or meshes[i]. -/
  | indexOutOfBounds
  /-- Result::unwrap on an Err value, as in the serde_json unwrap. -/
  | unwrapFailed
  /-- The explicit panic in calc_billboard_matrix for keep_upright. -/
  | notImplementedKeepUpright
deriving DecidableEq

/-- Outcome of a Rust computation that can panic. The Rust signatures
    modelled here have no declared error channel: a panic is the only
    failure mode, and it is not a value surfaced to the caller. -/
inductive Panics (α : Type) where
  | ok (a : α)
  | panicked (msg : PanicMsg)
deriving DecidableEq

/-- Embedding of GltfModel::calc_billboard_matrix, keep_upright false
    branch: transpose the view matrix, clear the three components that
    held the view translation (source mat[0][3], mat[1][3], mat[2][3]),
    then copy the model translation column (source mat[3][0..3]). -/
def calcBillboardCore (view_mat model_mat : Matrix4) : Matrix4 :=
  let m := view_mat.transpose
  let m := { m with x := { m.x with w := 0 },
                    y := { m.y with w := 0 },
                    z := { m.z with w := 0 } }
  { m with w := { m.w with x := model_mat.w.x, y := model_mat.w.y, z := model_mat.w.z } }

/-- Embedding of GltfModel::calc_billboard_matrix. The keep_upright
    branch is the source panic, not a returned error value. -/
def calcBillboardMatrix (view_mat model_mat : Matrix4) (keep_upright : Bool) :
    Panics Matrix4 :=
  match keep_upright with
  | true => .panicked .notImplementedKeepUpright
  | false => .ok (calcBillboardCore view_mat model_mat)

/-- OpenGL filter enum NEAREST (0x2600). -/
def glNEAREST : Nat := 9728

/-- OpenGL filter enum LINEAR (0x2601). -/
def glLINEAR : Nat := 9729

/-- OpenGL filter enum NEAREST_MIPMAP_NEAREST (0x2700). -/
def glNEAREST_MIPMAP_NEAREST : Nat := 9984

/-- OpenGL filter enum LINEAR_MIPMAP_NEAREST (0x2701). -/
def glLINEAR_MIPMAP_NEAREST : Nat := 9985

/-- OpenGL filter enum NEAREST_MIPMAP_LINEAR (0x2702). -/
def glNEAREST_MIPMAP_LINEAR : Nat := 9986

/-- OpenGL filter enum LINEAR_MIPMAP_LINEAR (0x2703). -/
def glLINEAR_MIPMAP_LINEAR : Nat := 9987

/-- Embedding of GltfModel::de_mipmapify: map a mip-mapped filter enum
    to its non-mipped equivalent, leave any other value unchanged. -/
def de_mipmapify (filter : Nat) : Nat :=
  if filter = glNEAREST_MIPMAP_NEAREST then glNEAREST
  else if filter = glLINEAR_MIPMAP_NEAREST then glLINEAR
  else if filter = glNEAREST_MIPMAP_LINEAR then glNEAREST
  else if filter = glLINEAR_MIPMAP_LINEAR then glLINEAR
  else filter

/-- Sampler state of a source texture: wrap modes and optional
    min/mag filters, already as GL enums (as_gl_enum applied). -/
structure GSampler where
  wrap_s : Nat
  wrap_t : Nat
  min_filter : Option Nat
  mag_filter : Option Nat
deriving DecidableEq

/-- A source texture: the index of its source image and its sampler. -/
structure GTexture where
  sourceIndex : Nat
  sampler : GSampler
deriving DecidableEq

/-- Decoded image data, as gltf::image::Data. Pixel contents are not
    modelled: the claims concern index resolution and sampler state. -/
structure ImageData where
  width : Nat
  height : Nat
deriving DecidableEq

/-- The TextureParams record built in GltfModel::load_texture. -/
structure TextureParams where
  horz_wrap : Nat
  vert_wrap : Nat
  min_filter : Nat
  mag_filter : Nat
deriving DecidableEq

/-- The resulting GPU texture: its parameters, dimensions, and whether
    gen_mipmaps was invoked on it. -/
structure Texture where
  params : TextureParams
  width : Nat
  height : Nat
  mipmapsGenerated : Bool
deriving DecidableEq

/-- Embedding of GltfModel::load_texture. The slice indexing
    image_data[tex.source().index()] panics when the index is out of
    range; there is no declared error channel. Pixel quantization and
    the GPU upload (assumed to succeed) are not modelled; the source
    then calls gen_mipmaps unconditionally. -/
def load_texture (tex : GTexture) (image_data : List ImageData) : Panics Texture :=
  match image_data[tex.sourceIndex]? with
  | none => .panicked .indexOutOfBounds
  | some data =>
    let tp : TextureParams :=
      { horz_wrap := tex.sampler.wrap_s,
        vert_wrap := tex.sampler.wrap_t,
        min_filter := (tex.sampler.min_filter).getD glNEAREST,
        mag_filter := (tex.sampler.mag_filter).getD glNEAREST }
    let tp := { tp with min_filter := de_mipmapify tp.min_filter,
                        mag_filter := de_mipmapify tp.mag_filter }
    .ok { params := tp, width := data.width, height := data.height,
          mipmapsGenerated := true }

/-- Minification filter of a texture load outcome, when it succeeded. -/
def texMinFilter : Panics Texture → Option Nat
  | .ok t => some t.params.min_filter
  | .panicked _ => none

/-- Magnification filter of a texture load outcome, when it succeeded. -/
def texMagFilter : Panics Texture → Option Nat
  | .ok t => some t.params.mag_filter
  | .panicked _ => none

/-- Mipmap generation flag of a texture load outcome, when it succeeded. -/
def texMips : Panics Texture → Option Bool
  | .ok t => some t.mipmapsGenerated
  | .panicked _ => none

/-- An animation as loaded by GltfAnimation::load: its name plus an
    abstract payload standing for its keyframe channels (module not in
    scope of the claims beyond the name-keyed table). -/
structure GltfAnimation where
  name : String
  payload : Nat
deriving DecidableEq

/-- Observable insert semantics of HashMap::insert as exercised by
    collect on a (String, GltfAnimation) iterator: inserting under an
    existing key replaces its value. -/
def hashMapInsert (m : List (String × GltfAnimation)) (k : String)
    (v : GltfAnimation) : List (String × GltfAnimation) :=
  (k, v) :: m.filter (fun p => p.1 ≠ k)

/-- Lookup in the modelled hash map. -/
def tableLookup (m : List (String × GltfAnimation)) (k : String) :
    Option GltfAnimation :=
  (m.find? (fun p => p.1 = k)).map (fun p => p.2)

/-- Embedding of the animation-table construction in GltfModel::import:
    map each animation to the pair (name, animation) and collect into a
    name-keyed hash map, inserting in document order. -/
def collectAnimations (anims : List GltfAnimation) :
    List (String × GltfAnimation) :=
  anims.foldl (fun m a => hashMapInsert m a.name a) []

/-- Raw per-node extras, as the serde RawValue carried by a node: a
    JSON object with an optional lighting_strength field, or malformed
    JSON that fails to deserialize into GltfNodeExtras. -/
inductive RawExtras where
  | obj (lighting_strength : Option ℚ)
  | malformed
deriving DecidableEq

/-- Parsed extras for a gltf node, as struct GltfNodeExtras. -/
structure GltfNodeExtras where
  lighting_strength : ℚ
deriving DecidableEq

/-- Serde field default for lighting_strength. -/
def GltfNodeExtras.default_lighting_strength : ℚ := 1

instance : Inhabited GltfNodeExtras :=
  ⟨{ lighting_strength := GltfNodeExtras.default_lighting_strength }⟩

/-- Deserialization of raw extras into GltfNodeExtras, as the
    serde_json::from_str call: a well-formed object parses, with the
    missing field replaced by the serde default 1.0; malformed JSON
    yields no value (the Err case of from_str). -/
def parseExtras : RawExtras → Option GltfNodeExtras
  | .obj ls => some { lighting_strength := ls.getD GltfNodeExtras.default_lighting_strength }
  | .malformed => none

/-- Embedding of the parsed_extras computation in build_scene_recursive:
    parse the effective raw extras if present, unwrapping the serde
    result (a parse failure is the source unwrap panic), else take the
    GltfNodeExtras default. -/
def parsedResolve : Option RawExtras → Panics GltfNodeExtras
  | some e =>
    match parseExtras e with
    | some p => .ok p
    | none => .panicked .unwrapFailed
  | none => .ok default

/-- A transform node of the hierarchy, abstracted to the world
    transform it reports; the hierarchy computation itself lives in a
    sub-module outside the claims considered here. -/
structure TransformNode where
  world : Matrix4
deriving DecidableEq

/-- Per-mesh extras, as read through GltfMesh::extras. -/
structure GltfMeshExtras where
  is_billboard : Bool
  keep_upright : Bool
deriving DecidableEq

/-- A loaded mesh, abstracted to an identifier and its extras flags. -/
structure GltfMesh where
  id : Nat
  extras : GltfMeshExtras
deriving DecidableEq

/-- A skin joint: its transform node and inverse bind matrix. -/
structure Joint where
  transform : TransformNode
  inverseBindMatrix : Matrix4
deriving DecidableEq

/-- A loaded skin: its ordered joint list. -/
structure GltfSkin where
  joints : List Joint
deriving DecidableEq

/-- Kind of a punctual light in the source document. -/
inductive LightKind where
  | directional
  | point
  | spot (inner_cone_angle outer_cone_angle : ℚ)
deriving DecidableEq

/-- Light definition carried by a source node. -/
structure LightDef where
  kind : LightKind
  color : Vector4
  intensity : ℚ
  range : Option ℚ
deriving DecidableEq

/-- Light type tags, as enum LightType. -/
inductive LightType where
  | directionalLight
  | pointLight
  | spotLight
deriving DecidableEq

/-- A built light, as GltfLight::new receives it. -/
structure GltfLight where
  transform : Option TransformNode
  lightType : LightType
  color : Vector4
  intensity : ℚ
  range : Option ℚ
  innerConeAngle : Option ℚ
  outerConeAngle : Option ℚ
deriving DecidableEq

/-- Embedding of the light construction in build_scene_recursive:
    match the source kind to a light type and the spot cone angles. -/
def mkGltfLight (transform : Option TransformNode) (ld : LightDef) : GltfLight :=
  match ld.kind with
  | .directional =>
    { transform := transform, lightType := .directionalLight, color := ld.color,
      intensity := ld.intensity, range := ld.range,
      innerConeAngle := none, outerConeAngle := none }
  | .point =>
    { transform := transform, lightType := .pointLight, color := ld.color,
      intensity := ld.intensity, range := ld.range,
      innerConeAngle := none, outerConeAngle := none }
  | .spot inner outer =>
    { transform := transform, lightType := .spotLight, color := ld.color,
      intensity := ld.intensity, range := ld.range,
      innerConeAngle := some inner, outerConeAngle := some outer }

/-- Reference from a node to a document mesh: its index in the mesh
    table and its optional name. -/
structure GltfMeshRef where
  index : Nat
  name : Option String
deriving DecidableEq

/-- A node of the source scene graph: its stable index, optional mesh
    reference, optional skin index, optional light, optional raw
    extras, and its ordered children. -/
inductive GNode where
  | mk (index : Nat) (mesh : Option GltfMeshRef) (skin : Option Nat)
       (light : Option LightDef) (extras : Option RawExtras)
       (children : List GNode)

/-- Index of a node. -/
def GNode.index : GNode → Nat
  | .mk i _ _ _ _ _ => i

/-- Mesh reference of a node. -/
def GNode.mesh : GNode → Option GltfMeshRef
  | .mk _ m _ _ _ _ => m

/-- Skin index of a node. -/
def GNode.skin : GNode → Option Nat
  | .mk _ _ s _ _ _ => s

/-- Light definition of a node. -/
def GNode.light : GNode → Option LightDef
  | .mk _ _ _ l _ _ => l

/-- Raw extras of a node. -/
def GNode.extras : GNode → Option RawExtras
  | .mk _ _ _ _ e _ => e

/-- Children of a node. -/
def GNode.children : GNode → List GNode
  | .mk _ _ _ _ _ c => c

/-- Replace the child at position k of a node, leaving everything else
    unchanged; used to state sibling independence of inheritance. -/
def setChild (n : GNode) (k : Nat) (c : GNode) : GNode :=
  match n with
  | .mk i m s l e cs => .mk i m s l e (cs.set k c)

/-- The empty name used by the source unwrap_or for unnamed meshes. -/
def emptyName : String := ""

/-- A drawable, as struct GltfDrawable. -/
structure Drawable where
  name : String
  transform : Option TransformNode
  mesh : GltfMesh
  skin : Option GltfSkin
  parsed_extras : GltfNodeExtras
  raw_extras : Option RawExtras
deriving DecidableEq

/-- Embedding of the skin resolution in build_scene_recursive:
    node.skin().map(|skin| skins[skin.index()].clone()), where the
    slice indexing panics when the index is out of range. -/
def skinResolve (skins : List GltfSkin) : Option Nat → Panics (Option GltfSkin)
  | none => .ok none
  | some i =>
    match skins[i]? with
    | none => .panicked .indexOutOfBounds
    | some s => .ok (some s)

/-- Embedding of the mesh branch of build_scene_recursive for one node:
    when the node has a mesh reference, look the mesh up by index (the
    slice indexing panics when out of range), resolve the optional skin,
    parse the effective extras (unwrap panics on malformed JSON), and
    produce the single drawable; otherwise no drawable. -/
def ownDrawables (transform : Option TransformNode) (meshes : List GltfMesh)
    (skins : List GltfSkin) (node_extras : Option RawExtras) :
    Option GltfMeshRef → Option Nat → Panics (List Drawable)
  | none, _ => .ok []
  | some mr, so =>
    match meshes[mr.index]? with
    | none => .panicked .indexOutOfBounds
    | some mesh =>
      match skinResolve skins so with
      | .panicked msg => .panicked msg
      | .ok skin =>
        match parsedResolve node_extras with
        | .panicked msg => .panicked msg
        | .ok parsed =>
          .ok [{ name := (mr.name).getD emptyName, transform := transform,
                 mesh := mesh, skin := skin, parsed_extras := parsed,
                 raw_extras := node_extras }]

/-- Embedding of the light branch of build_scene_recursive for one
    node: a light record when the node carries a light definition. -/
def ownLights (transform : Option TransformNode) :
    Option LightDef → List GltfLight
  | none => []
  | some ld => [mkGltfLight transform ld]

mutual

/-- Embedding of GltfModel::build_scene_recursive: resolve the node
    transform by index, compute the effective raw extras as the node
    extras or-else the inherited parent extras, emit the node drawable
    and light, then recurse into the children passing the effective raw
    extras down. Drawables and lights of a node precede those of its
    descendants, children in declaration order. -/
def buildNode (h : Nat → Option TransformNode) (meshes : List GltfMesh)
    (skins : List GltfSkin) (pext : Option RawExtras) :
    GNode → Panics (List Drawable × List GltfLight)
  | .mk idx mo so lo eo cs =>
    match ownDrawables (h idx) meshes skins (eo.or pext) mo so with
    | .panicked msg => .panicked msg
    | .ok ds =>
      match buildNodes h meshes skins (eo.or pext) cs with
      | .panicked msg => .panicked msg
      | .ok (cds, cls) => .ok (ds ++ cds, ownLights (h idx) lo ++ cls)

/-- The for-loop over child nodes in build_scene_recursive, and over
    the root nodes of a scene in GltfModel::import: each node of the
    list is built with the same inherited extras, outputs appended in
    order. -/
def buildNodes (h : Nat → Option TransformNode) (meshes : List GltfMesh)
    (skins : List GltfSkin) (pext : Option RawExtras) :
    List GNode → Panics (List Drawable × List GltfLight)
  | [] => .ok ([], [])
  | n :: ns =>
    match buildNode h meshes skins pext n with
    | .panicked msg => .panicked msg
    | .ok (ds, ls) =>
      match buildNodes h meshes skins pext ns with
      | .panicked msg => .panicked msg
      | .ok (ds2, ls2) => .ok (ds ++ ds2, ls ++ ls2)

end

/-- A scene of the document: its root nodes. -/
structure GScene where
  nodes : List GNode

/-- Embedding of the scene loop in GltfModel::import: every scene is
    traversed, each root node entered with no inherited extras. -/
def buildScenes (h : Nat → Option TransformNode) (meshes : List GltfMesh)
    (skins : List GltfSkin) : List GScene → Panics (List Drawable × List GltfLight)
  | [] => .ok ([], [])
  | s :: rest =>
    match buildNodes h meshes skins none s.nodes with
    | .panicked msg => .panicked msg
    | .ok (ds, ls) =>
      match buildScenes h meshes skins rest with
      | .panicked msg => .panicked msg
      | .ok (ds2, ls2) => .ok (ds ++ ds2, ls ++ ls2)

/-- The node_extras value (source line: node.extras().as_ref().or(
    parent_extras)) reached at the node addressed by a child-index
    path, threading the inherited extras down exactly as
    build_scene_recursive does; none when the path leaves the tree. -/
def codeExtrasAt : Option RawExtras → GNode → List Nat → Option (Option RawExtras)
  | pext, n, [] => some (n.extras.or pext)
  | pext, n, i :: p =>
    match n.children[i]? with
    | none => none
    | some c => codeExtrasAt (n.extras.or pext) c p

/-- The chain of nodes from a subtree root down to the node addressed
    by a child-index path, inclusive at both ends. -/
def chain : GNode → List Nat → Option (List GNode)
  | n, [] => some [n]
  | n, i :: p =>
    match n.children[i]? with
    | none => none
    | some c => (chain c p).map (fun l => n :: l)

/-- Effective raw extras in the words of the spec: the first present
    extras found on the chain from the node up toward the root
    (nearest-ancestor-first), or the inherited value entering the
    subtree. -/
def specExtrasOfChain (pext : Option RawExtras) (l : List GNode) :
    Option RawExtras :=
  (l.reverse.findSome? GNode.extras).or pext

mutual

/-- Depth-first preorder listing of a subtree: the node, then its
    children subtrees in declaration order. -/
def preorderNode : GNode → List GNode
  | .mk i m s l e cs => .mk i m s l e cs :: preorderList cs

/-- Depth-first preorder listing of a forest. -/
def preorderList : List GNode → List GNode
  | [] => []
  | n :: ns => preorderNode n ++ preorderList ns

end

/-- Depth-first preorder of a whole document: scenes in order, root
    nodes in declaration order. -/
def docPreorder (scenes : List GScene) : List GNode :=
  scenes.flatMap (fun s => preorderList s.nodes)

/-- The identifying payload a node contributes to the drawable list:
    its resolved name and mesh, when the node carries a mesh reference
    that resolves in the mesh table. -/
def drawableProj (meshes : List GltfMesh) (n : GNode) :
    Option (String × GltfMesh) :=
  n.mesh.bind (fun mr => (meshes[mr.index]?).map
    (fun m => ((mr.name).getD emptyName, m)))

/-- The light a node contributes to the light list, when it carries a
    light definition. -/
def lightProj (h : Nat → Option TransformNode) (n : GNode) : Option GltfLight :=
  n.light.map (fun ld => mkGltfLight (h n.index) ld)

/-- What render writes to the GPU for one drawable: the computed model
    matrix, the matrix actually uploaded (after the billboard branch),
    the lighting strength, the skinning flag, the per-slot joint
    matrices (slot i is list position i; empty when skinning is off and
    the joint array is left untouched), and the mesh drawn. -/
structure DrawCall where
  modelMat : Matrix4
  uploadedMat : Matrix4
  lightingStrength : ℚ
  skinningEnabled : Bool
  jointMatrices : List Matrix4
  mesh : GltfMesh
deriving DecidableEq

/-- The model matrix computation of GltfModel::render (source lines
    184 to 187): the object world transform times the world transform
    of the referenced node, falling back to the hierarchy root. -/
def modelMatOf (object_world_transform : Matrix4) (rootWorld : Matrix4)
    (d : Drawable) : Matrix4 :=
  object_world_transform * ((d.transform.map TransformNode.world).getD rootWorld)

/-- Embedding of the per-drawable body of GltfModel::render: compute
    the model matrix, branch on the billboard flag (the keep_upright
    case panics inside calc_billboard_matrix), set lighting strength,
    and write the joint data when a skin is present. -/
def renderDrawable (object_world_transform view_mat rootWorld : Matrix4)
    (d : Drawable) : Panics DrawCall :=
  match (if d.mesh.extras.is_billboard then
           calcBillboardMatrix view_mat (modelMatOf object_world_transform rootWorld d)
             d.mesh.extras.keep_upright
         else
           .ok (modelMatOf object_world_transform rootWorld d)) with
  | .panicked msg => .panicked msg
  | .ok uploaded =>
    let sk : Bool × List Matrix4 :=
      match d.skin with
      | some skin =>
        (true, skin.joints.map
          (fun j => object_world_transform * j.transform.world * j.inverseBindMatrix))
      | none => (false, [])
    .ok { modelMat := modelMatOf object_world_transform rootWorld d,
          uploadedMat := uploaded,
          lightingStrength := d.parsed_extras.lighting_strength,
          skinningEnabled := sk.1,
          jointMatrices := sk.2,
          mesh := d.mesh }

/-- Embedding of the drawable loop of GltfModel::render: drawables are
    processed in list order, draw calls issued in that order; a panic
    aborts the traversal. -/
def renderList (object_world_transform view_mat rootWorld : Matrix4) :
    List Drawable → Panics (List DrawCall)
  | [] => .ok []
  | d :: ds =>
    match renderDrawable object_world_transform view_mat rootWorld d with
    | .panicked msg => .panicked msg
    | .ok c =>
      match renderList object_world_transform view_mat rootWorld ds with
      | .panicked msg => .panicked msg
      | .ok cs => .ok (c :: cs)

/-- The source document as it reaches GltfModel::import, with the
    sub-module loaders (meshes, skins, animations) abstracted to their
    results. -/
structure GDoc where
  scenes : List GScene
  meshes : List GltfMesh
  skins : List GltfSkin
  textures : List GTexture
  animations : List GltfAnimation

/-- A built model: the drawable list, light list, and the name-keyed
    animation table, as struct GltfModel. -/
structure GltfModel where
  drawables : List Drawable
  lights : List GltfLight
  animations : List (String × GltfAnimation)

/-- The texture loop of GltfModel::import: load every texture; the
    first panic aborts the import. -/
def loadTextures (image_data : List ImageData) :
    List GTexture → Panics (List Texture)
  | [] => .ok []
  | t :: ts =>
    match load_texture t image_data with
    | .panicked msg => .panicked msg
    | .ok tex =>
      match loadTextures image_data ts with
      | .panicked msg => .panicked msg
      | .ok texs => .ok (tex :: texs)

/-- Embedding of GltfModel::import over the modelled parts: load the
    textures, build the animation table by collecting (name, animation)
    pairs, and build the drawable and light lists; the transform
    hierarchy is abstracted to the index-to-node map h. Buffer upload
    and the material, mesh and skin loaders live in sub-modules and
    arrive pre-loaded in the document. -/
def importModel (h : Nat → Option TransformNode) (doc : GDoc)
    (image_data : List ImageData) : Panics GltfModel :=
  match loadTextures image_data doc.textures with
  | .panicked msg => .panicked msg
  | .ok _ =>
    match buildScenes h doc.meshes doc.skins doc.scenes with
    | .panicked msg => .panicked msg
    | .ok (ds, ls) =>
      .ok { drawables := ds, lights := ls,
            animations := collectAnimations doc.animations }

/-- Concrete transform map with no nodes, for concrete scenarios. -/
def noTransforms : Nat → Option TransformNode := fun _ => none

/-- A plain mesh with no billboard flags. -/
def mesh0 : GltfMesh := { id := 0, extras := { is_billboard := false, keep_upright := false } }

/-- A mesh flagged billboard with the keep-upright variant requested. -/
def uprightMesh : GltfMesh := { id := 1, extras := { is_billboard := true, keep_upright := true } }

/-- A drawable whose mesh requests keep-upright billboarding. -/
def uprightDrawable : Drawable :=
  { name := emptyName, transform := none, mesh := uprightMesh, skin := none,
    parsed_extras := default, raw_extras := none }

/-- Claim C1: for every view matrix V and model matrix M, the
    billboard matrix is the transpose of V with the components that
    held the V translation zeroed and the translation column of M
    copied in (stated entrywise in cgmath column-major layout, columns
    of the result written out); in particular, for an identity view
    matrix and a model matrix translating by (x, y, z), the result is
    exactly that translation matrix: identity rotation block and
    translation (x, y, z). -/
theorem billboard_transform_correct :
    (∀ view model : Matrix4, calcBillboardMatrix view model false =
      .ok ⟨⟨view.x.x, view.y.x, view.z.x, 0⟩,
           ⟨view.x.y, view.y.y, view.z.y, 0⟩,
           ⟨view.x.z, view.y.z, view.z.z, 0⟩,
           ⟨model.w.x, model.w.y, model.w.z, view.w.w⟩⟩)
    ∧ (∀ x y z : ℚ, calcBillboardMatrix idMat (translateM x y z) false =
      .ok (translateM x y z)) :=
  ⟨fun _ _ => rfl, fun _ _ _ => rfl⟩

/-- Claim C3, counterexample: rendering a drawable flagged billboard
    with keep-upright requested does not surface a declared, catchable
    configuration error to the caller: the embedded render has no error
    channel at all (as the source signatures return plain values), and
    the traversal ends in the source panic. -/
theorem billboard_upright_cx :
    renderList idMat idMat idMat [uprightDrawable]
      = .panicked .notImplementedKeepUpright := rfl

/-- Claim C3, amended: for every drawable whose mesh is flagged
    billboard with keep-upright requested, rendering panics with the
    not-implemented message instead of producing a transform; the
    rejection is a panic, not a declared error value. -/
theorem billboard_upright_panics :
    ∀ (owt view rootWorld : Matrix4) (d : Drawable),
      d.mesh.extras.is_billboard = true →
      d.mesh.extras.keep_upright = true →
      renderDrawable owt view rootWorld d = .panicked .notImplementedKeepUpright := by
  intro owt view rootWorld d h1 h2
  simp [renderDrawable, h1, h2, calcBillboardMatrix]

/-- Witness for the amended claim C3 at a concrete drawable. -/
theorem billboard_upright_panics_witness :
    renderDrawable idMat idMat idMat uprightDrawable
      = .panicked .notImplementedKeepUpright :=
  billboard_upright_panics idMat idMat idMat uprightDrawable rfl rfl

/-- A texture whose source image index resolves nowhere in an empty
    image list. -/
def cxTexture : GTexture :=
  { sourceIndex := 0,
    sampler := { wrap_s := 0, wrap_t := 0, min_filter := none, mag_filter := none } }

/-- Claim C5, counterexample: loading a texture whose source image
    index is out of range does not surface a declared reference error
    to the caller: load_texture has no error channel (its source
    returns a plain Texture), and the slice indexing panics. -/
theorem texture_oob_cx :
    load_texture cxTexture [] = .panicked .indexOutOfBounds := rfl

/-- Claim C5, amended: for every texture whose source image index is
    outside the decoded image list, load_texture panics with the
    out-of-bounds indexing panic; no error value is returned. -/
theorem texture_oob_panics :
    ∀ (tex : GTexture) (image_data : List ImageData),
      image_data[tex.sourceIndex]? = none →
      load_texture tex image_data = .panicked .indexOutOfBounds := by
  intro tex image_data h
  simp [load_texture, h]

/-- Witness for the amended claim C5 at a concrete texture and list. -/
theorem texture_oob_panics_witness :
    load_texture { sourceIndex := 1, sampler := cxTexture.sampler } [{ width := 4, height := 4 }]
      = .panicked .indexOutOfBounds :=
  texture_oob_panics { sourceIndex := 1, sampler := cxTexture.sampler }
    [{ width := 4, height := 4 }] rfl

/-- A node carrying unparseable metadata and nothing else. -/
def badNode : GNode := .mk 0 none none none (some .malformed) []

/-- Claim C9, counterexample: a node whose metadata is present but
    fails to parse does not abort the scene build when no mesh consumes
    the metadata: the build of a scene holding only that node
    succeeds. The source parses extras only inside the mesh branch. -/
theorem extras_meshless_cx :
    buildScenes noTransforms [] [] [{ nodes := [badNode] }] = .ok ([], []) := rfl

/-- Claim C9, amended: when a mesh-carrying node has present effective
    metadata that fails to parse (its own or inherited), and the mesh
    and skin lookups themselves resolve, the scene build ends in the
    source unwrap panic, aborting the import with no fallback to
    default metadata. -/
theorem extras_parse_fatal :
    ∀ (h : Nat → Option TransformNode) (meshes : List GltfMesh)
      (skins : List GltfSkin) (pext : Option RawExtras) (idx : Nat)
      (mr : GltfMeshRef) (so : Option Nat) (lo : Option LightDef)
      (eo : Option RawExtras) (cs : List GNode) (mesh : GltfMesh)
      (osk : Option GltfSkin) (e : RawExtras),
      meshes[mr.index]? = some mesh →
      skinResolve skins so = .ok osk →
      eo.or pext = some e →
      parseExtras e = none →
      buildNode h meshes skins pext (.mk idx (some mr) so lo eo cs)
        = .panicked .unwrapFailed := by
  intro h meshes skins pext idx mr so lo eo cs mesh osk e h1 h2 h3 h4
  simp [buildNode, ownDrawables, h1, h2, h3, h4, parsedResolve]

/-- Witness for the amended claim C9 at a concrete one-node scene. -/
theorem extras_parse_fatal_witness :
    buildNode noTransforms [mesh0] [] none
      (.mk 0 (some { index := 0, name := none }) none none (some .malformed) [])
      = .panicked .unwrapFailed :=
  extras_parse_fatal noTransforms [mesh0] [] none 0 { index := 0, name := none }
    none none (some .malformed) [] mesh0 none .malformed rfl rfl rfl rfl

lemma de_mipmapify_id (f : Nat) (h1 : f ≠ glNEAREST_MIPMAP_NEAREST)
    (h2 : f ≠ glLINEAR_MIPMAP_NEAREST) (h3 : f ≠ glNEAREST_MIPMAP_LINEAR)
    (h4 : f ≠ glLINEAR_MIPMAP_LINEAR) : de_mipmapify f = f := by
  simp [de_mipmapify, h1, h2, h3, h4]

lemma de_mipmapify_not_mipmapped (f : Nat) :
    de_mipmapify f ≠ glNEAREST_MIPMAP_NEAREST
    ∧ de_mipmapify f ≠ glLINEAR_MIPMAP_NEAREST
    ∧ de_mipmapify f ≠ glNEAREST_MIPMAP_LINEAR
    ∧ de_mipmapify f ≠ glLINEAR_MIPMAP_LINEAR := by
  by_cases h1 : f = glNEAREST_MIPMAP_NEAREST
  · subst h1; decide
  by_cases h2 : f = glLINEAR_MIPMAP_NEAREST
  · subst h2; decide
  by_cases h3 : f = glNEAREST_MIPMAP_LINEAR
  · subst h3; decide
  by_cases h4 : f = glLINEAR_MIPMAP_LINEAR
  · subst h4; decide
  rw [de_mipmapify_id f h1 h2 h3 h4]
  exact ⟨h1, h2, h3, h4⟩

/-- Claim C6: for every texture loaded with its source image in range,
    the effective filters are the sampler filters defaulted to NEAREST
    when unspecified and then passed through de_mipmapify; de_mipmapify
    sends each LINEAR mip-mapped mode to LINEAR, each NEAREST
    mip-mapped mode to NEAREST, leaves any other mode unchanged, and
    never returns a mip-mapped mode; and mip levels are generated
    unconditionally on the resulting texture. -/
theorem texture_filter_policy :
    (∀ (tex : GTexture) (image_data : List ImageData) (data : ImageData),
      image_data[tex.sourceIndex]? = some data →
      texMinFilter (load_texture tex image_data)
          = some (de_mipmapify ((tex.sampler.min_filter).getD glNEAREST))
      ∧ texMagFilter (load_texture tex image_data)
          = some (de_mipmapify ((tex.sampler.mag_filter).getD glNEAREST))
      ∧ texMips (load_texture tex image_data) = some true)
    ∧ de_mipmapify glLINEAR_MIPMAP_NEAREST = glLINEAR
    ∧ de_mipmapify glLINEAR_MIPMAP_LINEAR = glLINEAR
    ∧ de_mipmapify glNEAREST_MIPMAP_NEAREST = glNEAREST
    ∧ de_mipmapify glNEAREST_MIPMAP_LINEAR = glNEAREST
    ∧ (∀ f, f ≠ glNEAREST_MIPMAP_NEAREST → f ≠ glLINEAR_MIPMAP_NEAREST →
        f ≠ glNEAREST_MIPMAP_LINEAR → f ≠ glLINEAR_MIPMAP_LINEAR →
        de_mipmapify f = f)
    ∧ (∀ f, de_mipmapify f ≠ glNEAREST_MIPMAP_NEAREST
        ∧ de_mipmapify f ≠ glLINEAR_MIPMAP_NEAREST
        ∧ de_mipmapify f ≠ glNEAREST_MIPMAP_LINEAR
        ∧ de_mipmapify f ≠ glLINEAR_MIPMAP_LINEAR) := by
  refine ⟨?_, by decide, by decide, by decide, by decide, de_mipmapify_id,
    de_mipmapify_not_mipmapped⟩
  intro tex image_data data h
  simp [load_texture, h, texMinFilter, texMagFilter, texMips]

/-- A sampler requesting mip-mapped minification, as in the spec
    scenario for filter sanitization. -/
def wSampler : GSampler :=
  { wrap_s := 10497, wrap_t := 10497,
    min_filter := some glLINEAR_MIPMAP_LINEAR, mag_filter := none }

/-- Witness for claim C6 at a concrete texture whose sampler requests
    LINEAR_MIPMAP_LINEAR minification. -/
theorem texture_filter_policy_witness :
    texMinFilter (load_texture { sourceIndex := 0, sampler := wSampler }
        [{ width := 2, height := 2 }])
      = some (de_mipmapify ((wSampler.min_filter).getD glNEAREST))
    ∧ texMagFilter (load_texture { sourceIndex := 0, sampler := wSampler }
        [{ width := 2, height := 2 }])
      = some (de_mipmapify ((wSampler.mag_filter).getD glNEAREST))
    ∧ texMips (load_texture { sourceIndex := 0, sampler := wSampler }
        [{ width := 2, height := 2 }]) = some true :=
  texture_filter_policy.1 { sourceIndex := 0, sampler := wSampler }
    [{ width := 2, height := 2 }] { width := 2, height := 2 } rfl

lemma find_filter_ne (l : List (String × GltfAnimation)) (k k' : String)
    (h : k' ≠ k) :
    (l.filter (fun p => p.1 ≠ k')).find? (fun p => p.1 = k)
      = l.find? (fun p => p.1 = k) := by
  induction l with
  | nil => rfl
  | cons a l ih =>
    by_cases hk : a.1 = k
    · have ha : a.1 ≠ k' := by rw [hk]; exact fun hh => h hh.symm
      rw [List.filter_cons_of_pos (by simp [ha])]
      rw [List.find?_cons_of_pos _ (by simp [hk]), List.find?_cons_of_pos _ (by simp [hk])]
    · by_cases ha : a.1 = k'
      · rw [List.filter_cons_of_neg (by simp [ha])]
        rw [List.find?_cons_of_neg _ (by simp [hk])]
        exact ih
      · rw [List.filter_cons_of_pos (by simp [ha])]
        rw [List.find?_cons_of_neg _ (by simp [hk]), List.find?_cons_of_neg _ (by simp [hk])]
        exact ih

lemma tableLookup_insert (m : List (String × GltfAnimation)) (k k' : String)
    (v : GltfAnimation) :
    tableLookup (hashMapInsert m k' v) k = if k' = k then some v else tableLookup m k := by
  unfold tableLookup hashMapInsert
  by_cases h : k' = k
  · subst h
    rw [if_pos rfl, List.find?_cons_of_pos _ (by simp)]
    rfl
  · rw [if_neg h, List.find?_cons_of_neg _ (by simp [h])]
    congr 1
    exact find_filter_ne m k k' h

lemma tableLookup_foldl (as : List GltfAnimation)
    (m : List (String × GltfAnimation)) (k : String) :
    tableLookup (as.foldl (fun m a => hashMapInsert m a.name a) m) k =
      ((as.filter (fun a => a.name = k)).getLast?).or (tableLookup m k) := by
  induction as generalizing m with
  | nil => simp
  | cons a as ih =>
    rw [List.foldl_cons, ih]
    by_cases h : a.name = k
    · rw [List.filter_cons_of_pos (by simpa using h)]
      rw [tableLookup_insert, if_pos h, List.getLast?_cons]
      cases hl : (as.filter (fun a => a.name = k)).getLast? <;> simp [hl]
    · rw [List.filter_cons_of_neg (by simpa using h)]
      rw [tableLookup_insert, if_neg h]

/-- Claim C4, counterexample: importing a document in which two
    animations share the name of animA does not fail with a naming
    collision error; the import succeeds and the name-keyed table
    silently keeps only the last-defined animation. -/
theorem anim_duplicate_cx :
    importModel noTransforms
      { scenes := [], meshes := [], skins := [], textures := [],
        animations := [{ name := "walk", payload := 1 }, { name := "walk", payload := 2 }] }
      []
      = .ok { drawables := [], lights := [],
              animations := [("walk", { name := "walk", payload := 2 })] } := by
  rfl

/-- Claim C4, amended: duplicate animation names do not fail the
    import; collecting into the name-keyed table silently overwrites,
    so looking up any name yields the last-defined animation with that
    name in document order. -/
theorem anim_table_last_wins :
    ∀ (anims : List GltfAnimation) (k : String),
      tableLookup (collectAnimations anims) k =
        (anims.filter (fun a => a.name = k)).getLast? := by
  intro anims k
  rw [collectAnimations, tableLookup_foldl]
  simp [tableLookup]

lemma renderDrawable_ok (owt view rw : Matrix4) (d : Drawable) (c : DrawCall)
    (h : renderDrawable owt view rw d = .ok c) :
    c.modelMat = modelMatOf owt rw d
    ∧ c.mesh = d.mesh
    ∧ c.skinningEnabled = d.skin.isSome
    ∧ c.jointMatrices = (d.skin.map (fun s => s.joints.map
        (fun j => owt * j.transform.world * j.inverseBindMatrix))).getD [] := by
  unfold renderDrawable at h
  cases hb : (if d.mesh.extras.is_billboard then
      calcBillboardMatrix view (modelMatOf owt rw d) d.mesh.extras.keep_upright
    else
      .ok (modelMatOf owt rw d)) with
  | panicked msg => rw [hb] at h; simp at h
  | ok u =>
    rw [hb] at h
    simp only [Panics.ok.injEq] at h
    subst h
    cases d.skin <;> simp

lemma renderList_proj {α : Type} (f : DrawCall → α) (g : Drawable → α)
    (owt view rw : Matrix4)
    (hfg : ∀ d c, renderDrawable owt view rw d = .ok c → f c = g d) :
    ∀ (ds : List Drawable) (calls : List DrawCall),
      renderList owt view rw ds = .ok calls → calls.map f = ds.map g := by
  intro ds
  induction ds with
  | nil =>
    intro calls h
    unfold renderList at h
    simp only [Panics.ok.injEq] at h
    subst h
    rfl
  | cons d ds ih =>
    intro calls h
    unfold renderList at h
    cases hr : renderDrawable owt view rw d with
    | panicked msg => rw [hr] at h; simp at h
    | ok c =>
      rw [hr] at h
      cases hl : renderList owt view rw ds with
      | panicked msg => rw [hl] at h; simp at h
      | ok cs =>
        rw [hl] at h
        simp only [Panics.ok.injEq] at h
        subst h
        simp only [List.map_cons]
        rw [hfg d c hr, ih cs hl]

/-- Claim C7: for every drawable rendered in a frame, the computed
    model matrix is the object world transform times the world
    transform of the referenced transform node, falling back to the
    hierarchy root world transform when the drawable has none. -/
theorem render_model_matrix :
    ∀ (owt view rootWorld : Matrix4) (ds : List Drawable) (calls : List DrawCall),
      renderList owt view rootWorld ds = .ok calls →
      calls.map DrawCall.modelMat
        = ds.map (fun d => owt * ((d.transform.map TransformNode.world).getD rootWorld)) := by
  intro owt view rw ds calls h
  exact renderList_proj DrawCall.modelMat
    (fun d => owt * ((d.transform.map TransformNode.world).getD rw)) owt view rw
    (fun d c hc => (renderDrawable_ok owt view rw d c hc).1) ds calls h

/-- Claim C8: for every rendered drawable with a skin, skinning is
    enabled and slot i of the joint array holds the object world
    transform times the world transform of the transform node of joint
    i times its inverse bind matrix; for a drawable without a skin,
    skinning is disabled (and no joint matrices are written). -/
theorem render_skinning :
    ∀ (owt view rootWorld : Matrix4) (ds : List Drawable) (calls : List DrawCall),
      renderList owt view rootWorld ds = .ok calls →
      calls.map (fun c => (c.skinningEnabled, c.jointMatrices))
        = ds.map (fun d => (d.skin.isSome,
            (d.skin.map (fun s => s.joints.map
              (fun j => owt * j.transform.world * j.inverseBindMatrix))).getD [])) := by
  intro owt view rw ds calls h
  exact renderList_proj (fun c => (c.skinningEnabled, c.jointMatrices))
    (fun d => (d.skin.isSome,
      (d.skin.map (fun s => s.joints.map
        (fun j => owt * j.transform.world * j.inverseBindMatrix))).getD [])) owt view rw
    (fun d c hc => by
      obtain ⟨-, -, h3, h4⟩ := renderDrawable_ok owt view rw d c hc
      rw [Prod.mk.injEq]
      exact ⟨h3, h4⟩) ds calls h

/-- A transform node and a one-joint skin for concrete scenarios. -/
def wNodeT : TransformNode := { world := translateM 1 0 0 }

/-- A joint referencing wNodeT. -/
def wJoint : Joint := { transform := wNodeT, inverseBindMatrix := translateM 0 1 0 }

/-- A one-joint skin. -/
def wSkin : GltfSkin := { joints := [wJoint] }

/-- A skinned, non-billboard drawable with a dedicated transform. -/
def wDrawable : Drawable :=
  { name := emptyName, transform := some wNodeT, mesh := mesh0,
    skin := some wSkin, parsed_extras := default, raw_extras := none }

/-- The draw call produced for wDrawable under identity transforms. -/
def wCall : DrawCall :=
  { modelMat := modelMatOf idMat idMat wDrawable,
    uploadedMat := modelMatOf idMat idMat wDrawable,
    lightingStrength := GltfNodeExtras.default_lighting_strength,
    skinningEnabled := true,
    jointMatrices := [idMat * wJoint.transform.world * wJoint.inverseBindMatrix],
    mesh := mesh0 }

/-- Witness for claim C7 at a concrete one-drawable render. -/
theorem render_model_matrix_witness :
    [wCall].map DrawCall.modelMat
      = [wDrawable].map (fun d => idMat * ((d.transform.map TransformNode.world).getD idMat)) :=
  render_model_matrix idMat idMat idMat [wDrawable] [wCall] (by rfl)

/-- Witness for claim C8 at a concrete one-drawable skinned render. -/
theorem render_skinning_witness :
    [wCall].map (fun c => (c.skinningEnabled, c.jointMatrices))
      = [wDrawable].map (fun d => (d.skin.isSome,
          (d.skin.map (fun s => s.joints.map
            (fun j => idMat * j.transform.world * j.inverseBindMatrix))).getD [])) :=
  render_skinning idMat idMat idMat [wDrawable] [wCall] (by rfl)

lemma findSome?_single (f : GNode → Option RawExtras) (a : GNode) :
    [a].findSome? f = f a := by
  cases h : f a <;> simp [List.findSome?_cons, h]

lemma codeExtrasAt_spec (path : List Nat) :
    ∀ (pext : Option RawExtras) (n : GNode),
      codeExtrasAt pext n path = (chain n path).map (specExtrasOfChain pext) := by
  induction path with
  | nil =>
    intro pext n
    show some (n.extras.or pext) = Option.map (specExtrasOfChain pext) (some [n])
    cases h : n.extras <;>
      simp [specExtrasOfChain, findSome?_single, h]
  | cons i p ih =>
    intro pext n
    cases hc : n.children[i]? with
    | none => simp [codeExtrasAt, chain, hc]
    | some c =>
      simp only [codeExtrasAt, chain, hc]
      rw [ih (n.extras.or pext) c, Option.map_map]
      cases hcp : chain c p with
      | none => rfl
      | some l =>
        simp only [Option.map_some', Function.comp_apply, Option.some.injEq]
        unfold specExtrasOfChain
        rw [List.reverse_cons, List.findSome?_append, findSome?_single, Option.or_assoc]

lemma codeExtrasAt_sibling (pext : Option RawExtras) (n : GNode) (k : Nat)
    (c : GNode) (i : Nat) (p : List Nat) (hik : i ≠ k) :
    codeExtrasAt pext (setChild n k c) (i :: p) = codeExtrasAt pext n (i :: p) := by
  cases n with
  | mk idx mo so lo eo cs =>
    simp only [setChild, codeExtrasAt, GNode.children, GNode.extras]
    rw [List.getElem?_set_ne (fun h => hik h.symm)]

/-- Claim C2: during scene build the effective raw metadata at every
    node equals the nearest-ancestor-first search over its ancestor
    chain (own metadata if present, else the nearest ancestor metadata,
    else the inherited value entering the subtree, none at the roots),
    because the value is threaded down the recursion as an argument;
    absent metadata parses to the default lighting_strength 1; and
    replacing one child subtree changes neither a sibling path nor the
    node itself, so siblings and ancestors never inherit from it. -/
theorem extras_inheritance_spec :
    (∀ (pext : Option RawExtras) (n : GNode) (path : List Nat),
      codeExtrasAt pext n path = (chain n path).map (specExtrasOfChain pext))
    ∧ parsedResolve none = .ok { lighting_strength := 1 }
    ∧ parseExtras (.obj none) = some { lighting_strength := 1 }
    ∧ (∀ (pext : Option RawExtras) (n : GNode) (k : Nat) (c : GNode)
        (i : Nat) (p : List Nat),
        i ≠ k → codeExtrasAt pext (setChild n k c) (i :: p) = codeExtrasAt pext n (i :: p))
    ∧ (∀ (pext : Option RawExtras) (n : GNode) (k : Nat) (c : GNode),
        codeExtrasAt pext (setChild n k c) [] = codeExtrasAt pext n []) := by
  refine ⟨fun pext n path => codeExtrasAt_spec path pext n, rfl, rfl,
    fun pext n k c i p h => codeExtrasAt_sibling pext n k c i p h, ?_⟩
  intro pext n k c
  cases n with
  | mk idx mo so lo eo cs => rfl

/-- First sibling, carrying explicit metadata lighting_strength 1/2. -/
def wChildA : GNode := .mk 1 none none none (some (.obj (some (1/2)))) []

/-- Second sibling, carrying no metadata. -/
def wChildB : GNode := .mk 2 none none none none []

/-- A parent without metadata holding the two siblings. -/
def wParent : GNode := .mk 0 none none none none [wChildA, wChildB]

/-- A replacement child with different metadata. -/
def wReplacement : GNode := .mk 3 none none none (some (.obj (some 2))) []

/-- Witness for claim C2: replacing the first sibling leaves the
    effective metadata on the second sibling path unchanged. -/
theorem extras_inheritance_spec_witness :
    codeExtrasAt none (setChild wParent 0 wReplacement) [1]
      = codeExtrasAt none wParent [1] :=
  extras_inheritance_spec.2.2.2.1 none wParent 0 wReplacement 1 [] (by decide)

lemma filterMap_cons_toList {α β : Type} (f : α → Option β) (a : α) (l : List α) :
    (f a).toList ++ l.filterMap f = (a :: l).filterMap f := by
  cases h : f a <;> simp [List.filterMap_cons, h]

lemma ownDrawables_ok_map (t : Option TransformNode) (meshes : List GltfMesh)
    (skins : List GltfSkin) (ne : Option RawExtras) (idx : Nat)
    (mo : Option GltfMeshRef) (so : Option Nat) (lo : Option LightDef)
    (cs : List GNode) (ds : List Drawable)
    (h : ownDrawables t meshes skins ne mo so = .ok ds) :
    ds.map (fun d => (d.name, d.mesh))
      = (drawableProj meshes (GNode.mk idx mo so lo (ne.or none) cs)).toList := by
  cases mo with
  | none =>
    simp only [ownDrawables, Panics.ok.injEq] at h
    subst h
    rfl
  | some mr =>
    simp only [ownDrawables] at h
    cases hm : meshes[mr.index]? with
    | none => rw [hm] at h; simp at h
    | some mesh =>
      rw [hm] at h
      cases hs : skinResolve skins so with
      | panicked msg => rw [hs] at h; simp at h
      | ok skin =>
        rw [hs] at h
        cases hp : parsedResolve ne with
        | panicked msg => rw [hp] at h; simp at h
        | ok parsed =>
          rw [hp] at h
          simp only [Panics.ok.injEq] at h
          subst h
          show _ = ((meshes[mr.index]?).map
            (fun m => ((mr.name).getD emptyName, m))).toList
          rw [hm]
          rfl

lemma ownLights_toList (t : Option TransformNode) (lo : Option LightDef) :
    ownLights t lo = (lo.map (mkGltfLight t)).toList := by
  cases lo <;> rfl

mutual

theorem buildNode_order (hfun : Nat → Option TransformNode)
    (meshes : List GltfMesh) (skins : List GltfSkin) (pext : Option RawExtras)
    (n : GNode) :
    ∀ (ds : List Drawable) (ls : List GltfLight),
      buildNode hfun meshes skins pext n = .ok (ds, ls) →
      ds.map (fun d => (d.name, d.mesh))
          = (preorderNode n).filterMap (drawableProj meshes)
      ∧ ls = (preorderNode n).filterMap (lightProj hfun) := by
  cases n with
  | mk idx mo so lo eo cs =>
    intro ds ls hb
    unfold buildNode at hb
    cases ho : ownDrawables (hfun idx) meshes skins (eo.or pext) mo so with
    | panicked msg => rw [ho] at hb; simp at hb
    | ok ds1 =>
      rw [ho] at hb
      cases hcs : buildNodes hfun meshes skins (eo.or pext) cs with
      | panicked msg => rw [hcs] at hb; simp at hb
      | ok pr =>
        obtain ⟨cds, cls⟩ := pr
        rw [hcs] at hb
        simp only [Panics.ok.injEq, Prod.mk.injEq] at hb
        obtain ⟨hds, hls⟩ := hb
        subst hds
        subst hls
        have hrec := buildNodes_order hfun meshes skins (eo.or pext) cs cds cls hcs
        have hdp : drawableProj meshes (GNode.mk idx mo so lo ((eo.or pext).or none) cs)
            = drawableProj meshes (GNode.mk idx mo so lo eo cs) := rfl
        constructor
        · rw [List.map_append, hrec.1,
            ownDrawables_ok_map (hfun idx) meshes skins (eo.or pext) idx mo so lo cs ds1 ho,
            hdp]
          show (drawableProj meshes (GNode.mk idx mo so lo eo cs)).toList
              ++ (preorderList cs).filterMap (drawableProj meshes)
            = ((GNode.mk idx mo so lo eo cs) :: preorderList cs).filterMap
                (drawableProj meshes)
          exact filterMap_cons_toList (drawableProj meshes) _ _
        · rw [hrec.2, ownLights_toList]
          show (lightProj hfun (GNode.mk idx mo so lo eo cs)).toList
              ++ (preorderList cs).filterMap (lightProj hfun)
            = ((GNode.mk idx mo so lo eo cs) :: preorderList cs).filterMap
                (lightProj hfun)
          exact filterMap_cons_toList (lightProj hfun) _ _

theorem buildNodes_order (hfun : Nat → Option TransformNode)
    (meshes : List GltfMesh) (skins : List GltfSkin) (pext : Option RawExtras)
    (ns : List GNode) :
    ∀ (ds : List Drawable) (ls : List GltfLight),
      buildNodes hfun meshes skins pext ns = .ok (ds, ls) →
      ds.map (fun d => (d.name, d.mesh))
          = (preorderList ns).filterMap (drawableProj meshes)
      ∧ ls = (preorderList ns).filterMap (lightProj hfun) := by
  cases ns with
  | nil =>
    intro ds ls hb
    unfold buildNodes at hb
    simp only [Panics.ok.injEq, Prod.mk.injEq] at hb
    obtain ⟨hds, hls⟩ := hb
    subst hds
    subst hls
    exact ⟨rfl, rfl⟩
  | cons n ns =>
    intro ds ls hb
    unfold buildNodes at hb
    cases hn : buildNode hfun meshes skins pext n with
    | panicked msg => rw [hn] at hb; simp at hb
    | ok pr1 =>
      obtain ⟨ds1, ls1⟩ := pr1
      rw [hn] at hb
      cases hns : buildNodes hfun meshes skins pext ns with
      | panicked msg => rw [hns] at hb; simp at hb
      | ok pr2 =>
        obtain ⟨ds2, ls2⟩ := pr2
        rw [hns] at hb
        simp only [Panics.ok.injEq, Prod.mk.injEq] at hb
        obtain ⟨hds, hls⟩ := hb
        subst hds
        subst hls
        have h1 := buildNode_order hfun meshes skins pext n ds1 ls1 hn
        have h2 := buildNodes_order hfun meshes skins pext ns ds2 ls2 hns
        refine ⟨?_, ?_⟩
        · rw [List.map_append, h1.1, h2.1]
          show _ = (preorderNode n ++ preorderList ns).filterMap (drawableProj meshes)
          rw [List.filterMap_append]
        · rw [h1.2, h2.2]
          show _ = (preorderNode n ++ preorderList ns).filterMap (lightProj hfun)
          rw [List.filterMap_append]

end

/-- Claim C10: the drawable and light lists produced by the scene
    build are exactly the depth-first preorder of the document node
    graph filtered to the nodes carrying a mesh or a light (scenes and
    sibling children in declaration order, a node before its
    descendants), and render issues its draw calls in exactly the
    drawable-list order. -/
theorem build_render_order :
    (∀ (hfun : Nat → Option TransformNode) (meshes : List GltfMesh)
      (skins : List GltfSkin) (scenes : List GScene)
      (ds : List Drawable) (ls : List GltfLight),
      buildScenes hfun meshes skins scenes = .ok (ds, ls) →
      ds.map (fun d => (d.name, d.mesh))
          = (docPreorder scenes).filterMap (drawableProj meshes)
      ∧ ls = (docPreorder scenes).filterMap (lightProj hfun))
    ∧ (∀ (owt view rootWorld : Matrix4) (ds : List Drawable)
      (calls : List DrawCall),
      renderList owt view rootWorld ds = .ok calls →
      calls.map DrawCall.mesh = ds.map Drawable.mesh) := by
  constructor
  · intro hfun meshes skins scenes
    induction scenes with
    | nil =>
      intro ds ls hb
      simp only [buildScenes, Panics.ok.injEq, Prod.mk.injEq] at hb
      obtain ⟨h1, h2⟩ := hb
      subst h1
      subst h2
      exact ⟨rfl, rfl⟩
    | cons s rest ih =>
      intro ds ls hb
      simp only [buildScenes] at hb
      cases hn : buildNodes hfun meshes skins none s.nodes with
      | panicked msg => rw [hn] at hb; simp at hb
      | ok pr1 =>
        obtain ⟨ds1, ls1⟩ := pr1
        rw [hn] at hb
        cases hr : buildScenes hfun meshes skins rest with
        | panicked msg => rw [hr] at hb; simp at hb
        | ok pr2 =>
          obtain ⟨ds2, ls2⟩ := pr2
          rw [hr] at hb
          simp only [Panics.ok.injEq, Prod.mk.injEq] at hb
          obtain ⟨h1, h2⟩ := hb
          subst h1
          subst h2
          have ha := buildNodes_order hfun meshes skins none s.nodes ds1 ls1 hn
          have hs := ih ds2 ls2 hr
          constructor
          · rw [List.map_append, ha.1, hs.1]
            show _ = (preorderList s.nodes ++ docPreorder rest).filterMap
              (drawableProj meshes)
            rw [List.filterMap_append]
          · rw [ha.2, hs.2]
            show _ = (preorderList s.nodes ++ docPreorder rest).filterMap
              (lightProj hfun)
            rw [List.filterMap_append]
  · intro owt view rootWorld ds calls h
    exact renderList_proj DrawCall.mesh Drawable.mesh owt view rootWorld
      (fun d c hc => (renderDrawable_ok owt view rootWorld d c hc).2.1) ds calls h

/-- Mesh reference to slot 0 of the mesh table. -/
def wMeshRef : GltfMeshRef := { index := 0, name := none }

/-- A point light definition. -/
def wLightDef : LightDef :=
  { kind := .point, color := ⟨1, 1, 1, 1⟩, intensity := 5, range := none }

/-- A child node carrying a mesh. -/
def wChildNode : GNode := .mk 1 (some wMeshRef) none none none []

/-- A root node carrying a mesh and a light, with one child. -/
def wRootNode : GNode := .mk 0 (some wMeshRef) none (some wLightDef) none [wChildNode]

/-- A one-root scene. -/
def wScene : GScene := { nodes := [wRootNode] }

/-- The drawable built for both nodes of wScene. -/
def wBuiltDrawable : Drawable :=
  { name := emptyName, transform := none, mesh := mesh0, skin := none,
    parsed_extras := default, raw_extras := none }

/-- Witness for claim C10 at a concrete two-node scene and a concrete
    one-drawable render. -/
theorem build_render_order_witness :
    ([wBuiltDrawable, wBuiltDrawable].map (fun d => (d.name, d.mesh))
        = (docPreorder [wScene]).filterMap (drawableProj [mesh0])
      ∧ [mkGltfLight none wLightDef] = (docPreorder [wScene]).filterMap (lightProj noTransforms))
    ∧ [wCall].map DrawCall.mesh = [wDrawable].map Drawable.mesh :=
  ⟨build_render_order.1 noTransforms [mesh0] [] [wScene]
      [wBuiltDrawable, wBuiltDrawable] [mkGltfLight none wLightDef] (by rfl),
    build_render_order.2 idMat idMat idMat [wDrawable] [wCall] (by rfl)⟩

end DF
